import Mathlib

/-!
# Shallow embedding of the TPMS decoder library and session tracker

Definitions translated from `sensor_decoders.py` and `tpms-interactive.py`.
Python floats are modelled as exact rationals (`ℚ`), byte strings as
`List ℕ` (each entry a byte value), and dictionaries keyed by MAC address
as functions `String → _`.  Fallible decoding returns `Option Reading`.
-/

namespace TPMS

/-- `ATM_PSI = 14.5` from `sensor_decoders.py`. -/
def ATM_PSI : ℚ := 14.5

/-- `PSI_TO_BAR = 0.0689476` from `sensor_decoders.py`. -/
def PSI_TO_BAR : ℚ := 0.0689476

/-- Byte access `p[i]` on a payload (default 0 out of range, matching the
fact that the Python code only indexes inside the checked length). -/
def byte (p : List ℕ) (i : ℕ) : ℕ := p.getD i 0

/-- `signed_byte`: convert unsigned byte (0-255) to signed (-128..127). -/
def signedByte (v : ℕ) : ℤ := if v > 127 then (v : ℤ) - 256 else (v : ℤ)

/-- Lower-case hex digit for a nibble, as produced by Python `bytes.hex()`. -/
def hexDigitChar (n : ℕ) : Char :=
  if n < 10 then Char.ofNat (48 + n) else Char.ofNat (87 + n)

/-- `to_hex`: the Python `bytes.hex()` string (two lower-case digits per byte). -/
def toHex (p : List ℕ) : String :=
  ⟨p.foldr (fun b acc => hexDigitChar (b / 16 % 16) :: hexDigitChar (b % 16) :: acc) []⟩

/-- Python `str.upper()` (character-wise, matching ASCII device names). -/
def strUpper (s : String) : String := ⟨s.data.map Char.toUpper⟩

/-- Python `str.lower()` (character-wise, matching ASCII identifiers). -/
def strLower (s : String) : String := ⟨s.data.map Char.toLower⟩

/-- Python `str.startswith`. -/
def strStartsWith (s pre : String) : Bool := pre.data.isPrefixOf s.data

/-- `needle` occurs as a contiguous sublist of `hay` (Python `sub in s`). -/
def charsContain (hay needle : List Char) : Bool :=
  (List.range (hay.length + 1)).any fun i => needle.isPrefixOf (hay.drop i)

/-- Python `sub in s` on strings. -/
def strContains (hay sub : String) : Bool := charsContain hay.data sub.data

/-- `uuid_in_list`: the lowered uuid occurs inside some lowered list entry. -/
def uuidInList (uuid : String) (serviceUuids : List String) : Bool :=
  serviceUuids.any fun u => strContains (strLower u) (strLower uuid)

/-- Python `round` (banker's rounding, round half to even). -/
def pyRound (q : ℚ) : ℤ :=
  let f := ⌊q⌋
  let frac := q - f
  if frac < 1/2 then f
  else if 1/2 < frac then f + 1
  else if f % 2 = 0 then f else f + 1

/-- The normalized reading dictionary produced by the decoders.  Keys that
only some decoders emit are `Option` fields (`none` = key absent).  The
`timestamp` and `device_name` keys are added by `decode_sensor_data`. -/
structure Reading where
  status : ℕ
  battery : ℚ
  temperature : ℤ
  pressure_bar : ℚ
  pressure_psi : ℚ
  hex_data : String
  decoder : String
  valid : Bool
  battery_pct : Option ℕ
  pressure_kpa : Option ℚ
  position : Option String
  note : Option String
  warning : Option String
  timestamp : Option ℚ
  device_name : Option String
  deriving DecidableEq, Repr

/-! ## BRTPMSDecoder (Format A, 7 bytes) -/

/-- `BRTPMSDecoder.can_decode`. -/
def brCanDecode (deviceName : String) (serviceUuids : List String) (mfdata : List ℕ) : Bool :=
  if deviceName = "BR" then true
  else if serviceUuids ≠ [] && uuidInList "27a5" serviceUuids then true
  else if mfdata.length = 7 && 0 < byte mfdata 1 && byte mfdata 1 < 50 then true
  else false

/-- `BRTPMSDecoder._validate_checksum`: `sum(data[0:5]) & 0xFFFF == (data[5] << 8) | data[6]`. -/
def brValidateChecksum (data : List ℕ) : Bool :=
  decide ((data.take 5).sum &&& 0xFFFF = ((byte data 5) <<< 8) ||| byte data 6)

/-- `BRTPMSDecoder.decode`. -/
def brDecode (mfdata : List ℕ) : Option Reading :=
  if mfdata.length < 7 then none
  else
    let valid := brValidateChecksum mfdata
    let status := byte mfdata 0
    let battery : ℚ := (byte mfdata 1 : ℚ) / 10
    let temperature := signedByte (byte mfdata 2)
    let pressure_raw : ℕ := ((byte mfdata 3) <<< 8) ||| byte mfdata 4
    let pressure_abs_psi : ℚ := (pressure_raw : ℚ) / 10
    let pressure_psi : ℚ := pressure_abs_psi - ATM_PSI
    let pressure_bar : ℚ := pressure_psi * PSI_TO_BAR
    some { status := status, battery := battery, temperature := temperature,
           pressure_bar := pressure_bar, pressure_psi := pressure_psi,
           hex_data := toHex mfdata, decoder := "BR-7byte", valid := valid,
           battery_pct := none, pressure_kpa := none, position := none,
           note := none, warning := none, timestamp := none, device_name := none }

/-! ## SYTPMSDecoder (Format B, 6 bytes) -/

/-- `SYTPMSDecoder.can_decode`. -/
def sytpmsCanDecode (deviceName : String) (serviceUuids : List String) (mfdata : List ℕ) : Bool :=
  if deviceName ≠ "" && strContains (strUpper deviceName) "TPMS" && mfdata.length = 6 then true
  else if serviceUuids ≠ [] && uuidInList "fbb0" serviceUuids then true
  else false

/-- `SYTPMSDecoder._validate_checksum`: XOR of bytes 0-4 equals byte 5. -/
def sytpmsValidateChecksum (data : List ℕ) : Bool :=
  decide (byte data 0 ^^^ byte data 1 ^^^ byte data 2 ^^^ byte data 3 ^^^ byte data 4
            = byte data 5)

/-- `SYTPMSDecoder.decode`. -/
def sytpmsDecode (mfdata : List ℕ) : Option Reading :=
  if mfdata.length < 6 then none
  else
    let valid := sytpmsValidateChecksum mfdata
    if valid = false then none
    else
      let temperature : ℤ := (byte mfdata 0 : ℤ) - 40
      let pressure_kpa : ℕ := ((byte mfdata 1) <<< 8) ||| byte mfdata 2
      let battery_pct := byte mfdata 3
      let status := byte mfdata 4
      let pressure_bar : ℚ := (pressure_kpa : ℚ) / 100
      let pressure_psi : ℚ := pressure_bar / PSI_TO_BAR
      let battery : ℚ := 3 * ((battery_pct : ℚ) / 100)
      some { status := status, battery := battery, temperature := temperature,
             pressure_bar := pressure_bar, pressure_psi := pressure_psi,
             hex_data := toHex mfdata, decoder := "SYTPMS-6byte", valid := valid,
             battery_pct := none, pressure_kpa := none, position := none,
             note := none, warning := none, timestamp := none, device_name := none }

/-! ## TPMS3Decoder (Format C, 16 bytes) -/

/-- `TPMS3Decoder.PA_TO_PSI`. -/
def PA_TO_PSI : ℚ := 0.000145038

/-- `TPMS3Decoder.PA_TO_BAR`. -/
def PA_TO_BAR : ℚ := 0.00001

/-- `TPMS3Decoder.can_decode`. -/
def tpms3CanDecode (deviceName : String) (_serviceUuids : List String) (mfdata : List ℕ) : Bool :=
  if deviceName ≠ "" && strStartsWith (strUpper deviceName) "TPMS"
      && (strUpper deviceName).data.length > 4
      && ((strUpper deviceName).data.getD 4 ' ').isDigit then true
  else if mfdata.length = 16 then true
  else false

/-- `TPMS3Decoder._position_from_name`: digit at index 4 of the device name,
0 when absent or not a digit (`int(...)` failing). -/
def positionFromName (deviceName : String) : ℕ :=
  if deviceName ≠ "" && deviceName.data.length > 4 && (deviceName.data.getD 4 ' ').isDigit
  then (deviceName.data.getD 4 ' ').toNat - 48
  else 0

/-- The `pos_labels` table with its `f"#{position}"` default. -/
def posLabel (position : ℕ) : String :=
  if position = 1 then "FL" else if position = 2 then "FR"
  else if position = 3 then "RL" else if position = 4 then "RR"
  else "#" ++ toString position

/-- Bytes 6-9 of a TPMS3 payload as a little-endian 32-bit value. -/
def tpms3PressurePa (mfdata : List ℕ) : ℕ :=
  byte mfdata 6 ||| ((byte mfdata 7) <<< 8) ||| ((byte mfdata 8) <<< 16)
    ||| ((byte mfdata 9) <<< 24)

/-- `TPMS3Decoder.decode` (takes the device name for the position field). -/
def tpms3Decode (deviceName : String) (mfdata : List ℕ) : Option Reading :=
  if mfdata.length < 16 then none
  else
    let pressure_pa := tpms3PressurePa mfdata
    let pressure_psi : ℚ := (pressure_pa : ℚ) * PA_TO_PSI
    let pressure_bar : ℚ := (pressure_pa : ℚ) * PA_TO_BAR
    let temp_raw : ℕ := byte mfdata 10 ||| ((byte mfdata 11) <<< 8)
    let temperature : ℤ := pyRound ((temp_raw : ℚ) / 100)
    let battery_pct := byte mfdata 14
    let battery_v : ℚ := if battery_pct > 0 then 3 * ((battery_pct : ℚ) / 100) else 0
    let position := positionFromName deviceName
    let pos_label := posLabel position
    some { status := 0, battery := battery_v, temperature := temperature,
           pressure_bar := pressure_bar, pressure_psi := pressure_psi,
           hex_data := toHex mfdata, decoder := "TPMS3-16byte", valid := true,
           battery_pct := some battery_pct,
           pressure_kpa := some ((pressure_pa : ℚ) / 1000),
           position := some pos_label,
           note := some ("Pos:" ++ pos_label ++ " Batt:" ++ toString battery_pct ++ "%"),
           warning := none, timestamp := none, device_name := none }

/-! ## GenericTPMSDecoder (fallback) -/

/-- `GenericTPMSDecoder.can_decode`: any payload of length ≥ 4. -/
def genericCanDecode (_deviceName : String) (_serviceUuids : List String)
    (mfdata : List ℕ) : Bool :=
  decide (mfdata.length ≥ 4)

/-- Big-endian 16-bit value of the byte pair at index `i`. -/
def pairVal (mfdata : List ℕ) (i : ℕ) : ℕ := ((byte mfdata i) <<< 8) ||| byte mfdata (i + 1)

/-- The scan loop of `GenericTPMSDecoder.decode`: first index whose adjacent
byte pair lies strictly between 100 and 800. -/
def genericScan (mfdata : List ℕ) : Option ℕ :=
  (List.range (mfdata.length - 1)).find? fun i =>
    100 < pairVal mfdata i && pairVal mfdata i < 800

/-- `GenericTPMSDecoder.decode`. -/
def genericDecode (mfdata : List ℕ) : Option Reading :=
  if mfdata.length < 4 then none
  else
    let pressures : ℚ × ℚ :=
      match genericScan mfdata with
      | some i => (((pairVal mfdata i : ℚ) / 10 - ATM_PSI),
                   ((pairVal mfdata i : ℚ) / 10 - ATM_PSI) * PSI_TO_BAR)
      | none => (0, 0)
    let temperature : ℤ := if byte mfdata 0 < 100 then (byte mfdata 0 : ℤ) else 0
    let battery : ℚ := if byte mfdata 1 < 50 then (byte mfdata 1 : ℚ) / 10 else 0
    some { status := byte mfdata 0, battery := battery, temperature := temperature,
           pressure_bar := pressures.2, pressure_psi := pressures.1,
           hex_data := toHex mfdata, decoder := "Generic", valid := false,
           battery_pct := none, pressure_kpa := none, position := none,
           note := none, warning := some "Generic decoder - values may be incorrect",
           timestamp := none, device_name := none }

/-! ## TPMSDecoderFactory -/

/-- Tags for the four registered decoders. -/
inductive DecoderId where
  | br
  | tpms3
  | sytpms
  | generic
  deriving DecidableEq, Repr, Fintype

/-- The registry list built by `TPMSDecoderFactory.__init__`, in source order:
`[BRTPMSDecoder(), TPMS3Decoder(), SYTPMSDecoder(), GenericTPMSDecoder()]`. -/
def decoderOrder : List DecoderId := [.br, .tpms3, .sytpms, .generic]

/-- Dispatch of `can_decode` over the decoder tags. -/
def canDecode : DecoderId → String → List String → List ℕ → Bool
  | .br, n, u, p => brCanDecode n u p
  | .tpms3, n, u, p => tpms3CanDecode n u p
  | .sytpms, n, u, p => sytpmsCanDecode n u p
  | .generic, n, u, p => genericCanDecode n u p

/-- Dispatch of `decode` over the decoder tags (only TPMS3 reads the name). -/
def decodeOf : DecoderId → String → List ℕ → Option Reading
  | .br, _, p => brDecode p
  | .tpms3, n, p => tpms3Decode n p
  | .sytpms, _, p => sytpmsDecode p
  | .generic, _, p => genericDecode p

/-- `TPMSDecoderFactory.get_decoder`: first decoder whose `can_decode` accepts,
else `self.decoders[-1]` (the Generic fallback). -/
def getDecoder (deviceName : String) (serviceUuids : List String) (mfdata : List ℕ) :
    DecoderId :=
  match decoderOrder.find? (fun d => canDecode d deviceName serviceUuids mfdata) with
  | some d => d
  | none => DecoderId.generic

/-- Position of a decoder in the registry list (for priority statements). -/
def priorityIdx : DecoderId → ℕ
  | .br => 0
  | .tpms3 => 1
  | .sytpms => 2
  | .generic => 3

/-! ## Session tracker (`tpms-interactive.py`) -/

/-- `DEDUP_INTERVAL = 1.0` from `tpms-interactive.py`. -/
def DEDUP_INTERVAL : ℚ := 1

/-- `HISTORY_MAX = 50` from `monitor_sensors`. -/
def HISTORY_MAX : ℕ := 50

/-- `normalize_mac`: upper-case the address. -/
def normalizeMac (mac : String) : String := strUpper mac

/-- `decode_sensor_data`: select a decoder, decode, and stamp the result
with the current time and device name. -/
def decodeSensorData (deviceName : String) (serviceUuids : List String) (now : ℚ)
    (mfdata : List ℕ) : Option Reading :=
  let d := getDecoder deviceName serviceUuids mfdata
  (decodeOf d deviceName mfdata).map fun r =>
    { r with timestamp := some now, device_name := some deviceName }

/-- One entry of `packet_stats[mac]['history']`. -/
structure HistEntry where
  hex : String
  pressure_psi : ℚ
  pressure_bar : ℚ
  temperature : ℤ
  time : ℚ
  deriving DecidableEq, Repr

/-- One `packet_stats[mac]` record. -/
structure DevStats where
  count : ℕ
  timestamps : List ℚ
  history : List HistEntry
  deriving DecidableEq, Repr

/-- A fresh `{'count': 0, 'timestamps': [], 'history': []}` record. -/
def emptyStats : DevStats := ⟨0, [], []⟩

/-- The mutable module-level state touched by `monitor_sensors.on_device`. -/
structure MonState where
  lastDisplay : String → Option ℚ
  packetStats : String → DevStats
  sensorData : String → Option Reading

/-- Pointwise update of a MAC-keyed map. -/
def fupd {β : Type} (f : String → β) (k : String) (v : β) : String → β :=
  fun x => if x = k then v else f x

/-- The state at the start of `monitor_sensors` (stats reset to empty). -/
def initState : MonState := ⟨fun _ => none, fun _ => emptyStats, fun _ => none⟩

/-- The history append of `on_device`, including the `HISTORY_MAX` eviction
(`stats['history'] = stats['history'][-HISTORY_MAX:]`). -/
def histAppend (h : List HistEntry) (e : HistEntry) : List HistEntry :=
  let h2 := h ++ [e]
  if HISTORY_MAX < h2.length then h2.drop (h2.length - HISTORY_MAX) else h2

/-- The conditional history update of `on_device`
(`if not stats['history'] or stats['history'][-1]['hex'] != hex_data`). -/
def histUpdate (h : List HistEntry) (e : HistEntry) : List HistEntry :=
  if h = [] ∨ h.getLast?.map HistEntry.hex ≠ some e.hex then histAppend h e else h

/-- The body of the `for company_id, mfdata in adv.manufacturer_data.items()`
loop: decode one payload and record it (or skip it on decode failure). -/
def processOne (mac deviceName : String) (serviceUuids : List String) (now : ℚ)
    (st : MonState) (mfdata : List ℕ) : MonState :=
  match decodeSensorData deviceName serviceUuids now mfdata with
  | none => st
  | some data =>
    let stats := st.packetStats mac
    let count2 := stats.count + 1
    let ts2 := (stats.timestamps ++ [now]).filter fun t => now - t ≤ 60
    let entry : HistEntry :=
      ⟨data.hex_data, data.pressure_psi, data.pressure_bar, data.temperature, now⟩
    let hist2 := histUpdate stats.history entry
    { st with packetStats := fupd st.packetStats mac ⟨count2, ts2, hist2⟩,
              sensorData := fupd st.sensorData mac (some data) }

/-- An advertisement callback event: device address, name, service uuids,
the manufacturer-data payloads of the event (dict values), and the time. -/
structure AdvEvent where
  mac : String
  name : String
  uuids : List String
  mfdata : List (List ℕ)
  now : ℚ

/-- `monitor_sensors.on_device`: membership check, manufacturer-data check,
dedup against `last_display`, then record every decodable payload. -/
def onDevice (monitored : List String) (s : MonState) (e : AdvEvent) : MonState :=
  let mac := normalizeMac e.mac
  if mac ∉ monitored then s
  else if e.mfdata = [] then s
  else
    let dup : Bool :=
      match s.lastDisplay mac with
      | some t => decide (e.now - t < DEDUP_INTERVAL)
      | none => false
    if dup then s
    else
      let s1 : MonState := { s with lastDisplay := fupd s.lastDisplay mac (some e.now) }
      e.mfdata.foldl (processOne mac e.name e.uuids e.now) s1

/-- A whole monitoring session: fold the callback over an event list. -/
def runEvents (monitored : List String) (events : List AdvEvent) : MonState :=
  events.foldl (onDevice monitored) initState

/-- The packets-per-minute cell of the live display (`display_monitoring_ui`,
the `pkt_count >= 2 and elapsed > 0` conditional). -/
inductive RateStr where
  | perMin (q : ℚ)
  | lessOne
  | dash
  deriving DecidableEq, Repr

/-- The rate computation of `display_monitoring_ui`: fed `stats['count']`
and the integer elapsed-seconds of the session. -/
def rateOf (count : ℕ) (elapsed : ℤ) : RateStr :=
  if 2 ≤ count ∧ 0 < elapsed then .perMin ((count : ℚ) / ((elapsed : ℚ) / 60))
  else if count = 1 then .lessOne
  else .dash

/-! ## Concrete inputs and predicates used by the claim statements -/

/-- A decoded reading's two pressure fields agree under the fixed constant. -/
def pressureConsistent (o : Option Reading) : Prop :=
  match o with
  | none => True
  | some r => r.pressure_bar = r.pressure_psi * PSI_TO_BAR

/-- The 16-byte TPMS3 test payload `82eaca334fe2d91e0300f40900006200`. -/
def tpms3TestPayload : List ℕ :=
  [0x82, 0xea, 0xca, 0x33, 0x4f, 0xe2, 0xd9, 0x1e, 0x03, 0x00,
   0xf4, 0x09, 0x00, 0x00, 0x62, 0x00]

/-- A 16-byte TPMS3 payload carrying 300000 Pa (bytes 6-9 little-endian). -/
def tpms3Payload300k : List ℕ :=
  [0, 0, 0, 0, 0, 0, 0xe0, 0x93, 0x04, 0x00, 0, 0, 0, 0, 50, 0]

/-- A 7-byte payload accepted by the BR length/battery heuristic. -/
def plA : List ℕ := [1, 2, 3, 4, 5, 6, 7]

/-- A second 7-byte heuristic-accepted payload, differing from `plA`. -/
def plB : List ℕ := [1, 3, 3, 4, 5, 6, 7]

/-- A single-payload advertisement event for device address `"M"`. -/
def evOf (p : List ℕ) (t : ℚ) : AdvEvent := ⟨"M", "", [], [p], t⟩

/-- The BR test packet `281d130105005e` from the library's self-test. -/
def brTestPayload : List ℕ := [0x28, 0x1d, 0x13, 0x01, 0x05, 0x00, 0x5e]

/-- A 6-byte SYTPMS payload whose XOR checksum is correct
(`41 ^ 1 ^ 44 ^ 100 ^ 7 = 103`). -/
def pl6 : List ℕ := [41, 1, 44, 100, 7, 103]

/-- A 17-byte payload, longer than every format's nominal size. -/
def pl17 : List ℕ := [1, 2, 3, 4, 5, 1, 0xa0, 0x86, 0x01, 0x00, 0xf4, 0x09, 0, 0, 98, 0, 9]

/-- An event whose only payload (3 bytes) no decoder can decode. -/
def evUndecodable : AdvEvent := ⟨"M", "", [], [[1, 2, 3]], 0⟩

/-- The non-hex fields of a reading, for prefix-equality statements. -/
def coreFields (r : Reading) :
    ℕ × ℚ × ℤ × ℚ × ℚ × String × Bool × Option ℕ × Option ℚ ×
      Option String × Option String × Option String :=
  (r.status, r.battery, r.temperature, r.pressure_bar, r.pressure_psi,
   r.decoder, r.valid, r.battery_pct, r.pressure_kpa, r.position, r.note,
   r.warning)

/-- Adjacent history entries carry different payload hex. -/
def adjDistinct (h : List HistEntry) : Prop :=
  List.Chain' (fun a b => a.hex ≠ b.hex) h

/-- History entries are in strictly increasing time order. -/
def timeOrdered (h : List HistEntry) : Prop :=
  List.Chain' (fun a b => a.time < b.time) h

/-! ## Helper lemmas -/

/-- `get_decoder` unfolded to the cascade over the registry order. -/
theorem getDecoder_eq (n : String) (u : List String) (p : List ℕ) :
    getDecoder n u p =
      (if canDecode .br n u p then .br
       else if canDecode .tpms3 n u p then .tpms3
       else if canDecode .sytpms n u p then .sytpms
       else .generic) := by
  unfold getDecoder decoderOrder
  rcases h1 : canDecode DecoderId.br n u p <;>
    rcases h2 : canDecode DecoderId.tpms3 n u p <;>
    rcases h3 : canDecode DecoderId.sytpms n u p <;>
    rcases h4 : canDecode DecoderId.generic n u p <;>
    simp [List.find?, h1, h2, h3, h4]

/-! ## Claim theorems -/

/-- C2 counterexample: for the 6-byte payload with device name
`TPMS1_ABCDEF`, both the SYTPMS (Format B) and the TPMS3 (Format C)
identification predicates accept, yet `get_decoder` selects TPMS3, not
SYTPMS as the claim states: the registry order is BR, TPMS3, SYTPMS,
Generic. -/
theorem C2_counterexample :
    getDecoder "TPMS1_ABCDEF" [] [1, 2, 3, 4, 5, 6] = DecoderId.tpms3 ∧
    canDecode DecoderId.sytpms "TPMS1_ABCDEF" [] [1, 2, 3, 4, 5, 6] = true ∧
    canDecode DecoderId.tpms3 "TPMS1_ABCDEF" [] [1, 2, 3, 4, 5, 6] = true ∧
    DecoderId.tpms3 ≠ DecoderId.sytpms := by
  refine ⟨?_, by decide, by decide, by decide⟩
  rw [getDecoder_eq]
  decide

/-- C2 amended: the registry holds decoders in priority order Format A
(BR), then Format C (TPMS3), then Format B (SYTPMS), then the generic
fallback; selection returns the first decoder in that order whose
identification predicate returns true (and the fallback when none does);
in particular, for a 6-byte payload with device name `TPMS1_ABCDEF`,
which both Format B and Format C identify, Format C is selected. -/
theorem C2_amended :
    decoderOrder = [DecoderId.br, DecoderId.tpms3, DecoderId.sytpms, DecoderId.generic] ∧
    (∀ n u p d, canDecode d n u p = true →
      priorityIdx (getDecoder n u p) ≤ priorityIdx d) ∧
    (∀ n u p, canDecode (getDecoder n u p) n u p = true ∨
      getDecoder n u p = DecoderId.generic) ∧
    getDecoder "TPMS1_ABCDEF" [] [1, 2, 3, 4, 5, 6] = DecoderId.tpms3 := by
  refine ⟨rfl, ?_, ?_, by rw [getDecoder_eq]; decide⟩
  · intro n u p d h
    rw [getDecoder_eq]
    split_ifs with h1 h2 h3 <;> cases d <;>
      simp_all [priorityIdx]
  · intro n u p
    rw [getDecoder_eq]
    split_ifs with h1 h2 h3 <;> simp_all

/-- C9: decoder selection is total: when no identification predicate
accepts (as for a short payload with no matching name or service uuid),
`get_decoder` still returns the generic fallback, and every decoder's
`decode` yields a failure on a payload under 4 bytes, so no reading is
ever produced from such a payload. -/
theorem C9_selection_total (n : String) (u : List String) (p : List ℕ)
    (hlen : p.length < 4) :
    ((∀ d, canDecode d n u p = false) → getDecoder n u p = DecoderId.generic) ∧
    (∀ d nm, decodeOf d nm p = none) := by
  constructor
  · intro h
    rw [getDecoder_eq]
    simp [h DecoderId.br, h DecoderId.tpms3, h DecoderId.sytpms]
  · intro d nm
    cases d
    · simp only [decodeOf, brDecode]
      rw [if_pos (by omega)]
    · simp only [decodeOf, tpms3Decode]
      rw [if_pos (by omega)]
    · simp only [decodeOf, sytpmsDecode]
      rw [if_pos (by omega)]
    · simp only [decodeOf, genericDecode]
      rw [if_pos (by omega)]

/-- C9 witness: the 3-byte payload `[1, 2, 3]` with no name and no service
uuids satisfies no identification predicate, is still routed to the
generic fallback, and decodes to a failure under every decoder. -/
theorem C9_selection_total_witness :
    ([1, 2, 3] : List ℕ).length < 4 ∧
    (∀ d, canDecode d "" [] [1, 2, 3] = false) ∧
    (getDecoder "" [] [1, 2, 3] = DecoderId.generic ∧
      ∀ d nm, decodeOf d nm [1, 2, 3] = none) :=
  ⟨by decide, by decide,
    (C9_selection_total "" [] [1, 2, 3] (by decide)).1 (by decide),
    (C9_selection_total "" [] [1, 2, 3] (by decide)).2⟩

/-- Full evaluation of the TPMS3 decoder on the library's test payload. -/
theorem tpms3Decode_test_eval : tpms3Decode "TPMS3_334FE2" tpms3TestPayload =
    some { status := 0, battery := 147/50, temperature := 25,
           pressure_bar := 40901/20000, pressure_psi := 2966099619/100000000,
           hex_data := "82eaca334fe2d91e0300f40900006200",
           decoder := "TPMS3-16byte", valid := true,
           battery_pct := some 98, pressure_kpa := some (40901/200),
           position := some "RL", note := some "Pos:RL Batt:98%",
           warning := none, timestamp := none, device_name := none } := by
  rw [tpms3Decode, if_neg (by decide)]
  simp only [Option.some.injEq]
  have h1 : tpms3PressurePa tpms3TestPayload = 204505 := by decide
  have h2 : byte tpms3TestPayload 10 ||| byte tpms3TestPayload 11 <<< 8 = 2548 := by decide
  have h3 : byte tpms3TestPayload 14 = 98 := by decide
  have h4 : positionFromName "TPMS3_334FE2" = 3 := by decide
  have h5 : toHex tpms3TestPayload = "82eaca334fe2d91e0300f40900006200" := by decide
  rw [h1, h2, h3, h4, h5]
  have h6 : pyRound ((2548 : ℕ) / 100 : ℚ) = 25 := by
    rw [pyRound]
    have hf : ⌊((2548 : ℕ) / 100 : ℚ)⌋ = 25 := by
      rw [Int.floor_eq_iff]
      constructor
      · norm_num
      · norm_num
    rw [hf]
    norm_num
  rw [h6]
  have h7 : ("Pos:" ++ "RL" ++ " Batt:" ++ toString (98 : ℕ) ++ "%" : String)
      = "Pos:RL Batt:98%" := by decide
  have hp : posLabel 3 = "RL" := by decide
  rw [hp]
  norm_num [PA_TO_PSI, PA_TO_BAR]
  exact h7

/-- Full evaluation of the TPMS3 decoder on the 300000 Pa payload. -/
theorem tpms3Decode_300k_eval : tpms3Decode "" tpms3Payload300k =
    some { status := 0, battery := 3/2, temperature := 0,
           pressure_bar := 3, pressure_psi := 217557/5000,
           hex_data := "000000000000e0930400000000003200",
           decoder := "TPMS3-16byte", valid := true,
           battery_pct := some 50, pressure_kpa := some 300,
           position := some "#0", note := some "Pos:#0 Batt:50%",
           warning := none, timestamp := none, device_name := none } := by
  rw [tpms3Decode, if_neg (by decide)]
  simp only [Option.some.injEq]
  have h1 : tpms3PressurePa tpms3Payload300k = 300000 := by decide
  have h2 : byte tpms3Payload300k 10 ||| byte tpms3Payload300k 11 <<< 8 = 0 := by decide
  have h3 : byte tpms3Payload300k 14 = 50 := by decide
  have h4 : positionFromName "" = 0 := by decide
  have h5 : toHex tpms3Payload300k = "000000000000e0930400000000003200" := by decide
  rw [h1, h2, h3, h4, h5]
  have h6 : pyRound ((0 : ℕ) / 100 : ℚ) = 0 := by
    rw [pyRound]
    norm_num
  rw [h6]
  have h7 : ("Pos:" ++ "#0" ++ " Batt:" ++ toString (50 : ℕ) ++ "%" : String)
      = "Pos:#0 Batt:50%" := by decide
  have hp : posLabel 0 = "#0" := by decide
  rw [hp]
  norm_num [PA_TO_PSI, PA_TO_BAR]
  exact h7

/-- C1 counterexample: the TPMS3 decoder decodes the 16-byte payload with
300000 Pa in bytes 6-9 to a reading whose `pressure_bar` is NOT
`pressure_psi × 0.0689476` (the code computes `Pa × 0.00001` and
`Pa × 0.000145038` independently, and `0.000145038 × 0.0689476 ≠ 0.00001`). -/
theorem C1_counterexample :
    (tpms3Decode "" tpms3Payload300k).map
        (fun r => decide (r.pressure_bar = r.pressure_psi * PSI_TO_BAR))
      = some false := by
  simp only [tpms3Decode_300k_eval, Option.map_some', Option.some.injEq,
    decide_eq_false_iff_not]
  norm_num [PSI_TO_BAR]

/-- C1 amended: every reading decoded by Format A (BR), Format B (SYTPMS)
or the generic fallback satisfies `pressure_bar = pressure_psi × 0.0689476`
exactly; for Format C (TPMS3) the two pressure fields are computed
independently from the raw Pascal value, and the relation holds if and
only if that value is zero. -/
theorem C1_pressure_consistency_amended :
    (∀ p, pressureConsistent (brDecode p)) ∧
    (∀ p, pressureConsistent (sytpmsDecode p)) ∧
    (∀ p, pressureConsistent (genericDecode p)) ∧
    (∀ nm p, 16 ≤ p.length →
      (pressureConsistent (tpms3Decode nm p) ↔ tpms3PressurePa p = 0)) := by
  refine ⟨?_, ?_, ?_, ?_⟩
  · intro p
    unfold brDecode
    split
    · trivial
    · simp [pressureConsistent]
  · intro p
    unfold sytpmsDecode
    split
    · trivial
    · by_cases hv : sytpmsValidateChecksum p = false
      · simp [pressureConsistent, hv]
      · simp only [Bool.not_eq_false] at hv
        simp only [pressureConsistent, hv, Bool.true_eq_false, if_false]
        rw [div_mul_cancel₀]
        norm_num [PSI_TO_BAR]
  · intro p
    unfold genericDecode
    split
    · trivial
    · rcases h : genericScan p with _ | i <;> simp [pressureConsistent, h]
  · intro nm p hlen
    unfold tpms3Decode
    rw [if_neg (by omega)]
    simp only [pressureConsistent]
    rw [mul_assoc, mul_eq_mul_left_iff]
    rw [or_iff_right (by norm_num [PA_TO_BAR, PA_TO_PSI, PSI_TO_BAR])]
    exact Nat.cast_eq_zero

/-- C1 witness: applying the amended statement at the 300000 Pa payload:
it decodes, its Pascal value is nonzero, so its pressure fields are
inconsistent; and the BR test packet decodes consistently. -/
theorem C1_pressure_consistency_witness :
    16 ≤ tpms3Payload300k.length ∧
    (pressureConsistent (tpms3Decode "" tpms3Payload300k) ↔
      tpms3PressurePa tpms3Payload300k = 0) ∧
    pressureConsistent (brDecode plA) :=
  ⟨by decide,
   C1_pressure_consistency_amended.2.2.2 "" tpms3Payload300k (by decide),
   C1_pressure_consistency_amended.1 plA⟩

/-- C8 counterexample: decoding `82eaca334fe2d91e0300f40900006200` with
device name `TPMS3_334FE2` yields `pressure_psi = 29.66099619`, which is
not approximately 25.7 psi (it differs by more than 3.9 psi). -/
theorem C8_counterexample :
    (tpms3Decode "TPMS3_334FE2" tpms3TestPayload).map Reading.pressure_psi
        = some (2966099619 / 100000000 : ℚ) ∧
    |(2966099619 / 100000000 : ℚ) - 25.7| > 3.9 := by
  constructor
  · simp [tpms3Decode_test_eval]
  · rw [abs_of_nonneg (by norm_num)]
    norm_num

/-- C8 amended: decoding the 16-byte payload `82eaca334fe2d91e0300f40900006200`
with device name `TPMS3_334FE2` (position digit 3) yields pressure
≈ 29.7 psi gauge (exactly `204505 Pa × 0.000145038`), temperature 25 °C,
battery 98 %, and position "RL". -/
theorem C8_literal_decode_amended :
    (tpms3Decode "TPMS3_334FE2" tpms3TestPayload).map Reading.pressure_psi
        = some ((204505 : ℚ) * PA_TO_PSI) ∧
    |((tpms3Decode "TPMS3_334FE2" tpms3TestPayload).map Reading.pressure_psi).getD 0
        - 29.7| < 1/20 ∧
    (tpms3Decode "TPMS3_334FE2" tpms3TestPayload).map Reading.temperature = some 25 ∧
    (tpms3Decode "TPMS3_334FE2" tpms3TestPayload).map Reading.battery_pct
        = some (some 98) ∧
    (tpms3Decode "TPMS3_334FE2" tpms3TestPayload).map Reading.position
        = some (some "RL") ∧
    (tpms3Decode "TPMS3_334FE2" tpms3TestPayload).map Reading.valid = some true := by
  refine ⟨?_, ?_, ?_, ?_, ?_, ?_⟩ <;>
    simp only [tpms3Decode_test_eval, Option.map_some', Option.some.injEq, Option.getD_some]
  · norm_num [PA_TO_PSI]
  · rw [abs_of_nonpos (by norm_num)]
    norm_num

/-- Byte access inside the nominal prefix agrees with the full payload. -/
theorem byte_take (p : List ℕ) (n i : ℕ) (h : i < n) : byte (p.take n) i = byte p i := by
  unfold byte
  rw [List.getD_eq_getD_get?, List.getD_eq_getD_get?, List.get?_eq_getElem?,
    List.get?_eq_getElem?, List.getElem?_take_of_lt h]

/-- C6: for every payload of length at least 6, Format B (SYTPMS) decode
fails exactly when the XOR of bytes 0-4 differs from byte 5; when they
agree it returns a reading. -/
theorem C6_sytpms_checksum (p : List ℕ) (h : 6 ≤ p.length) :
    sytpmsDecode p = none ↔
      ¬(byte p 0 ^^^ byte p 1 ^^^ byte p 2 ^^^ byte p 3 ^^^ byte p 4 = byte p 5) := by
  unfold sytpmsDecode
  rw [if_neg (by omega)]
  by_cases hx : byte p 0 ^^^ byte p 1 ^^^ byte p 2 ^^^ byte p 3 ^^^ byte p 4 = byte p 5
  · have hv : sytpmsValidateChecksum p = true := by
      simp [sytpmsValidateChecksum, hx]
    simp [hv, hx]
  · have hv : sytpmsValidateChecksum p = false := by
      simp [sytpmsValidateChecksum, hx]
    simp [hv, hx]

/-- C6 witness: the checksum-correct 6-byte payload `pl6` instantiates the
theorem: its decode is not a failure. -/
theorem C6_witness :
    6 ≤ pl6.length ∧
    (sytpmsDecode pl6 = none ↔
      ¬(byte pl6 0 ^^^ byte pl6 1 ^^^ byte pl6 2 ^^^ byte pl6 3 ^^^ byte pl6 4 = byte pl6 5)) :=
  ⟨by decide, C6_sytpms_checksum pl6 (by decide)⟩

/-- C7: for every byte payload of length at least 7, Format A (BR) decode
returns a reading (a checksum mismatch never suppresses it) whose valid
flag is true exactly when the sum of bytes 0-4 modulo 65536 equals the
big-endian 16-bit value in bytes 5-6. -/
theorem C7_br_checksum_policy (p : List ℕ) (hb : ∀ b ∈ p, b < 256) (h : 7 ≤ p.length) :
    ∃ r, brDecode p = some r ∧
      (r.valid = true ↔ (p.take 5).sum % 65536 = byte p 5 * 256 + byte p 6) := by
  unfold brDecode
  rw [if_neg (by omega)]
  refine ⟨_, rfl, ?_⟩
  unfold brValidateChecksum
  simp only [decide_eq_true_eq]
  have hand : (p.take 5).sum &&& 0xFFFF = (p.take 5).sum % 65536 := by
    have he : (0xFFFF : ℕ) = 2 ^ 16 - 1 := by norm_num
    rw [he, Nat.and_pow_two_sub_one_eq_mod]
  have hb6 : byte p 6 < 2 ^ 8 := by
    have hm : byte p 6 ∈ p := by
      rw [byte, List.getD_eq_getElem _ _ (by omega)]
      exact List.getElem_mem _
    exact lt_of_lt_of_le (hb _ hm) (by norm_num)
  have hor : (byte p 5) <<< 8 ||| byte p 6 = byte p 5 * 256 + byte p 6 := by
    rw [Nat.shiftLeft_eq, Nat.mul_comm, ← Nat.mul_add_lt_is_or hb6]
  rw [hand, hor]

/-- The BR checksum only reads the 7-byte prefix. -/
theorem brValidateChecksum_take (p : List ℕ) : brValidateChecksum (p.take 7) = brValidateChecksum p := by
  unfold brValidateChecksum
  rw [List.take_take]
  norm_num
  rw [byte_take p 7 5 (by norm_num), byte_take p 7 6 (by norm_num)]

/-- The SYTPMS checksum only reads the 6-byte prefix. -/
theorem sytpmsValidateChecksum_take (p : List ℕ) :
    sytpmsValidateChecksum (p.take 6) = sytpmsValidateChecksum p := by
  unfold sytpmsValidateChecksum
  rw [byte_take p 6 0 (by norm_num), byte_take p 6 1 (by norm_num),
      byte_take p 6 2 (by norm_num), byte_take p 6 3 (by norm_num),
      byte_take p 6 4 (by norm_num), byte_take p 6 5 (by norm_num)]

/-- The TPMS3 pressure word only reads the 16-byte prefix. -/
theorem tpms3PressurePa_take (p : List ℕ) : tpms3PressurePa (p.take 16) = tpms3PressurePa p := by
  unfold tpms3PressurePa
  rw [byte_take p 16 6 (by norm_num), byte_take p 16 7 (by norm_num),
      byte_take p 16 8 (by norm_num), byte_take p 16 9 (by norm_num)]

/-- C10: each format's length check is a lower bound: Format A decodes any
payload of length ≥ 7, Format B of length ≥ 6 (up to its checksum, which
reads only bytes 0-5), Format C of length ≥ 16; all decoded fields except
the hex representation equal those of the nominal-length prefix, and the
hex representation is that of the full payload. -/
theorem C10_length_lower_bound (p : List ℕ) (nm : String) :
    (7 ≤ p.length →
      (brDecode p).map coreFields = (brDecode (p.take 7)).map coreFields ∧
      (brDecode p).map Reading.hex_data = some (toHex p) ∧
      (brDecode (p.take 7)).isSome = true) ∧
    (6 ≤ p.length →
      (sytpmsDecode p).map coreFields = (sytpmsDecode (p.take 6)).map coreFields ∧
      (sytpmsDecode p).map Reading.hex_data = (sytpmsDecode p).map (fun _ => toHex p) ∧
      (sytpmsDecode p).isSome = (sytpmsDecode (p.take 6)).isSome) ∧
    (16 ≤ p.length →
      (tpms3Decode nm p).map coreFields = (tpms3Decode nm (p.take 16)).map coreFields ∧
      (tpms3Decode nm p).map Reading.hex_data = some (toHex p) ∧
      (tpms3Decode nm (p.take 16)).isSome = true) := by
  refine ⟨?_, ?_, ?_⟩
  · intro h7
    have l7 : ¬((p.take 7).length < 7) := by rw [List.length_take]; omega
    refine ⟨?_, ?_, ?_⟩
    · unfold brDecode
      rw [if_neg (by omega), if_neg l7]
      simp only [Option.map_some', Option.some.injEq, coreFields]
      rw [brValidateChecksum_take, byte_take p 7 0 (by norm_num),
          byte_take p 7 1 (by norm_num), byte_take p 7 2 (by norm_num),
          byte_take p 7 3 (by norm_num), byte_take p 7 4 (by norm_num)]
    · unfold brDecode
      rw [if_neg (by omega)]
      rfl
    · unfold brDecode
      rw [if_neg l7]
      rfl
  · intro h6
    have l6 : ¬((p.take 6).length < 6) := by rw [List.length_take]; omega
    unfold sytpmsDecode
    rw [if_neg (by omega), if_neg l6, sytpmsValidateChecksum_take]
    by_cases hcs : sytpmsValidateChecksum p = false
    · simp [hcs]
    · simp only [Bool.not_eq_false] at hcs
      simp only [hcs, Bool.true_eq_false, if_false]
      refine ⟨?_, ?_, ?_⟩
      · simp only [Option.map_some', Option.some.injEq, coreFields]
        rw [byte_take p 6 0 (by norm_num), byte_take p 6 1 (by norm_num),
            byte_take p 6 2 (by norm_num), byte_take p 6 3 (by norm_num),
            byte_take p 6 4 (by norm_num)]
      · rfl
      · rfl
  · intro h16
    have l16 : ¬((p.take 16).length < 16) := by rw [List.length_take]; omega
    refine ⟨?_, ?_, ?_⟩
    · unfold tpms3Decode
      rw [if_neg (by omega), if_neg l16]
      simp only [Option.map_some', Option.some.injEq, coreFields]
      rw [tpms3PressurePa_take, byte_take p 16 10 (by norm_num),
          byte_take p 16 11 (by norm_num), byte_take p 16 14 (by norm_num)]
    · unfold tpms3Decode
      rw [if_neg (by omega)]
      rfl
    · unfold tpms3Decode
      rw [if_neg l16]
      rfl

/-- C10 witness: instantiating at the 17-byte payload `pl17`. -/
theorem C10_witness :
    7 ≤ pl17.length ∧ 6 ≤ pl17.length ∧ 16 ≤ pl17.length ∧
    ((brDecode pl17).map coreFields = (brDecode (pl17.take 7)).map coreFields ∧
      (brDecode pl17).map Reading.hex_data = some (toHex pl17) ∧
      (brDecode (pl17.take 7)).isSome = true) ∧
    ((sytpmsDecode pl17).map coreFields = (sytpmsDecode (pl17.take 6)).map coreFields ∧
      (sytpmsDecode pl17).map Reading.hex_data = (sytpmsDecode pl17).map (fun _ => toHex pl17) ∧
      (sytpmsDecode pl17).isSome = (sytpmsDecode (pl17.take 6)).isSome) ∧
    ((tpms3Decode "" pl17).map coreFields = (tpms3Decode "" (pl17.take 16)).map coreFields ∧
      (tpms3Decode "" pl17).map Reading.hex_data = some (toHex pl17) ∧
      (tpms3Decode "" (pl17.take 16)).isSome = true) :=
  ⟨by decide, by decide, by decide,
    (C10_length_lower_bound pl17 "").1 (by decide),
    (C10_length_lower_bound pl17 "").2.1 (by decide),
    (C10_length_lower_bound pl17 "").2.2 (by decide)⟩

/-- The per-payload loop body never touches `last_display`. -/
theorem processOne_lastDisplay (mac nm : String) (u : List String) (now : ℚ)
    (st : MonState) (md : List ℕ) :
    (processOne mac nm u now st md).lastDisplay = st.lastDisplay := by
  rcases h : decodeSensorData nm u now md with _ | data <;> simp [processOne, h]

/-- The per-payload loop body increments the count exactly on decode success. -/
theorem processOne_count (mac nm : String) (u : List String) (now : ℚ)
    (st : MonState) (md : List ℕ) :
    ((processOne mac nm u now st md).packetStats mac).count
      = (st.packetStats mac).count
        + (if (decodeSensorData nm u now md).isSome then 1 else 0) := by
  rcases h : decodeSensorData nm u now md with _ | data <;> simp [processOne, h, fupd]

/-- The payload loop adds one count per decodable payload and leaves
`last_display` alone. -/
theorem processOne_fold (mac nm : String) (u : List String) (now : ℚ)
    (mds : List (List ℕ)) (st : MonState) :
    ((mds.foldl (processOne mac nm u now) st).packetStats mac).count
      = (st.packetStats mac).count
        + (mds.filter fun md => (decodeSensorData nm u now md).isSome).length ∧
    (mds.foldl (processOne mac nm u now) st).lastDisplay = st.lastDisplay := by
  induction mds generalizing st with
  | nil => simp
  | cons md rest ih =>
    rcases (ih (processOne mac nm u now st md)) with ⟨ihc, ihl⟩
    constructor
    · rw [List.foldl_cons, ihc, processOne_count]
      rcases h : decodeSensorData nm u now md with _ | data <;>
        simp [List.filter, h] <;> try omega
    · rw [List.foldl_cons, ihl, processOne_lastDisplay]

/-- Within the dedup interval of the stored timestamp, `on_device` is a no-op. -/
theorem onDevice_dup (monitored : List String) (s : MonState) (e : AdvEvent) (t : ℚ)
    (hs : s.lastDisplay (normalizeMac e.mac) = some t)
    (hlt : e.now - t < DEDUP_INTERVAL) :
    onDevice monitored s e = s := by
  unfold onDevice
  by_cases hm : normalizeMac e.mac ∈ monitored
  · by_cases hmf : e.mfdata = []
    · simp [hm, hmf]
    · simp [hm, hmf, hs, hlt]
  · simp [hm]

/-- Past the dedup interval, `on_device` stamps `last_display` and runs the
payload loop. -/
theorem onDevice_go (monitored : List String) (s : MonState) (e : AdvEvent)
    (h1 : normalizeMac e.mac ∈ monitored) (h2 : e.mfdata ≠ [])
    (hnodup : ∀ t, s.lastDisplay (normalizeMac e.mac) = some t →
      DEDUP_INTERVAL ≤ e.now - t) :
    onDevice monitored s e =
      e.mfdata.foldl (processOne (normalizeMac e.mac) e.name e.uuids e.now)
        { s with lastDisplay := fupd s.lastDisplay (normalizeMac e.mac) (some e.now) } := by
  unfold onDevice
  rcases hld : s.lastDisplay (normalizeMac e.mac) with _ | t
  · simp [h1, h2, hld]
  · have hge := hnodup t hld
    simp [h1, h2, hld, not_lt.mpr hge]

/-- The per-payload loop body's effect on the rate window. -/
theorem processOne_timestamps (mac nm : String) (u : List String) (now : ℚ)
    (st : MonState) (md : List ℕ) :
    ((processOne mac nm u now st md).packetStats mac).timestamps
      = if (decodeSensorData nm u now md).isSome
        then ((st.packetStats mac).timestamps ++ [now]).filter fun x => now - x ≤ 60
        else (st.packetStats mac).timestamps := by
  rcases h : decodeSensorData nm u now md with _ | data <;> simp [processOne, h, fupd]

/-- The per-payload loop body's effect on the history list. -/
theorem processOne_history (mac nm : String) (u : List String) (now : ℚ)
    (st : MonState) (md : List ℕ) :
    ((processOne mac nm u now st md).packetStats mac).history
      = match decodeSensorData nm u now md with
        | none => (st.packetStats mac).history
        | some data => histUpdate (st.packetStats mac).history
            ⟨data.hex_data, data.pressure_psi, data.pressure_bar, data.temperature, now⟩ := by
  rcases h : decodeSensorData nm u now md with _ | data <;> simp [processOne, h, fupd]

/-- The per-payload loop body only touches its own device's stats. -/
theorem processOne_otherKeys (mac nm : String) (u : List String) (now : ℚ)
    (st : MonState) (md : List ℕ) (m : String) (hm : m ≠ mac) :
    (processOne mac nm u now st md).packetStats m = st.packetStats m := by
  rcases h : decodeSensorData nm u now md with _ | data <;> simp [processOne, h, fupd, hm]

/-- A chain invariant survives the history update when the appended entry
relates to the stored last entry. -/
theorem histUpdate_chain' (R : HistEntry → HistEntry → Prop) (h : List HistEntry)
    (e : HistEntry) (hc : List.Chain' R h)
    (hlast : ∀ x, h.getLast? = some x → ¬(x.hex = e.hex) → R x e) :
    List.Chain' R (histUpdate h e) := by
  unfold histUpdate
  split
  case isTrue hcond =>
    have happ : List.Chain' R (h ++ [e]) := by
      rw [List.chain'_append]
      refine ⟨hc, List.chain'_singleton _, ?_⟩
      intro x hx y hy
      simp only [List.head?_cons, Option.mem_def, Option.some.injEq] at hy
      subst hy
      have hgl : h.getLast? = some x := hx
      rcases hcond with rfl | hne
      · simp at hgl
      · refine hlast x hgl ?_
        intro hxe
        exact hne (by rw [hgl, Option.map_some', hxe])
    simp only [histAppend]
    split
    · exact happ.drop _
    · exact happ
  case isFalse => exact hc

/-- The per-MAC adjacent-distinct history invariant. -/
def statsInv (s : MonState) : Prop :=
  ∀ mac, adjDistinct ((s.packetStats mac).history)

/-- The adjacent-distinct invariant survives the per-payload loop body. -/
theorem processOne_inv (mac nm : String) (u : List String) (now : ℚ)
    (st : MonState) (md : List ℕ) (h : statsInv st) :
    statsInv (processOne mac nm u now st md) := by
  intro m
  by_cases hm : m = mac
  · subst hm
    rw [adjDistinct, processOne_history]
    rcases hd : decodeSensorData nm u now md with _ | data
    · exact h m
    · exact histUpdate_chain' _ _ _ (h m) (fun x _ hne => hne)
  · rw [adjDistinct, processOne_otherKeys mac nm u now st md m hm]
    exact h m

/-- The adjacent-distinct invariant survives the whole payload loop. -/
theorem foldl_processOne_inv (mac nm : String) (u : List String) (now : ℚ)
    (mds : List (List ℕ)) (st : MonState) (h : statsInv st) :
    statsInv (mds.foldl (processOne mac nm u now) st) := by
  induction mds generalizing st with
  | nil => exact h
  | cons md rest ih => exact ih _ (processOne_inv _ _ _ _ _ _ h)

/-- The adjacent-distinct invariant survives a callback. -/
theorem onDevice_inv (monitored : List String) (s : MonState) (e : AdvEvent)
    (h : statsInv s) : statsInv (onDevice monitored s e) := by
  by_cases hm : normalizeMac e.mac ∈ monitored
  · by_cases hmf : e.mfdata = []
    · rw [show onDevice monitored s e = s from by unfold onDevice; simp [hmf]]
      exact h
    · by_cases hdup : ∃ t, s.lastDisplay (normalizeMac e.mac) = some t ∧
          e.now - t < DEDUP_INTERVAL
      · obtain ⟨t, h1, h2⟩ := hdup
        rw [onDevice_dup monitored s e t h1 h2]
        exact h
      · push_neg at hdup
        rw [onDevice_go monitored s e hm hmf (fun t ht => hdup t ht)]
        exact foldl_processOne_inv _ _ _ _ _ _ (fun mac => h mac)
  · rw [show onDevice monitored s e = s from by unfold onDevice; simp [hm]]
    exact h

/-- The adjacent-distinct invariant holds in every reachable session state. -/
theorem runEvents_inv (monitored : List String) (events : List AdvEvent) :
    statsInv (runEvents monitored events) := by
  unfold runEvents
  have hgen : ∀ (evs : List AdvEvent) (s : MonState), statsInv s →
      statsInv (evs.foldl (onDevice monitored) s) := by
    intro evs
    induction evs with
    | nil => exact fun s h => h
    | cons e rest ih => exact fun s h => ih _ (onDevice_inv monitored s e h)
  exact hgen events initState (fun mac => List.chain'_nil)

/-- The 7-byte payload `plA` decodes (BR heuristic), with known hex. -/
theorem decode_plA (t : ℚ) :
    ∃ d, decodeSensorData "" [] t plA = some d ∧ d.hex_data = "01020304050607" := by
  simp only [decodeSensorData]
  rw [show getDecoder "" [] plA = DecoderId.br from by rw [getDecoder_eq]; decide]
  rw [show decodeOf DecoderId.br "" plA = brDecode plA from rfl]
  rw [brDecode, if_neg (by decide)]
  refine ⟨_, rfl, ?_⟩
  show toHex plA = "01020304050607"
  decide

/-- The 7-byte payload `plB` decodes (BR heuristic), with known hex. -/
theorem decode_plB (t : ℚ) :
    ∃ d, decodeSensorData "" [] t plB = some d ∧ d.hex_data = "01030304050607" := by
  simp only [decodeSensorData]
  rw [show getDecoder "" [] plB = DecoderId.br from by rw [getDecoder_eq]; decide]
  rw [show decodeOf DecoderId.br "" plB = brDecode plB from rfl]
  rw [brDecode, if_neg (by decide)]
  refine ⟨_, rfl, ?_⟩
  show toHex plB = "01030304050607"
  decide

/-- Combined effect of a dedup-passing single-payload event for device `M`. -/
theorem onDevice_single_step (monitored : List String) (s : MonState) (p : List ℕ) (t : ℚ)
    (h1 : ("M" : String) ∈ monitored)
    (hnodup : ∀ t0, s.lastDisplay "M" = some t0 → DEDUP_INTERVAL ≤ t - t0) :
    (onDevice monitored s (evOf p t)).lastDisplay "M" = some t ∧
    ((onDevice monitored s (evOf p t)).packetStats "M").count
      = (s.packetStats "M").count
        + (if (decodeSensorData "" [] t p).isSome then 1 else 0) ∧
    ((onDevice monitored s (evOf p t)).packetStats "M").timestamps
      = (if (decodeSensorData "" [] t p).isSome
         then ((s.packetStats "M").timestamps ++ [t]).filter fun x => t - x ≤ 60
         else (s.packetStats "M").timestamps) ∧
    ((onDevice monitored s (evOf p t)).packetStats "M").history
      = match decodeSensorData "" [] t p with
        | none => (s.packetStats "M").history
        | some data => histUpdate (s.packetStats "M").history
            ⟨data.hex_data, data.pressure_psi, data.pressure_bar, data.temperature, t⟩ := by
  have hM : normalizeMac (evOf p t).mac = "M" := rfl
  rw [onDevice_go monitored s (evOf p t) (by rw [hM]; exact h1) (by simp [evOf])
      (by rw [hM]; exact hnodup)]
  rw [show (evOf p t).mfdata = [p] from rfl, List.foldl_cons, List.foldl_nil, hM]
  refine ⟨?_, ?_, ?_, ?_⟩
  · rw [processOne_lastDisplay]
    simp [fupd, evOf]
  · rw [show (evOf p t).name = "" from rfl, show (evOf p t).uuids = ([] : List String) from rfl,
        show (evOf p t).now = t from rfl]
    rw [processOne_count]
  · rw [show (evOf p t).name = "" from rfl, show (evOf p t).uuids = ([] : List String) from rfl,
        show (evOf p t).now = t from rfl]
    rw [processOne_timestamps]
  · rw [show (evOf p t).name = "" from rfl, show (evOf p t).uuids = ([] : List String) from rfl,
        show (evOf p t).now = t from rfl]
    rw [processOne_history]

/-- A payload that fails to decode leaves the state unchanged. -/
theorem processOne_none (mac nm : String) (u : List String) (now : ℚ)
    (st : MonState) (md : List ℕ) (h : decodeSensorData nm u now md = none) :
    processOne mac nm u now st md = st := by
  simp [processOne, h]

/-- C4 amended: for a monitored device with manufacturer data, the whole
callback is discarded (state unchanged) if less than the dedup interval
(default 1.0 s) has elapsed since the last non-discarded such callback
(whose time is stored in `last_display` even when its payload failed to
decode); otherwise the dedup timestamp is set to now and one reading is
recorded per decodable payload. -/
theorem C4_dedup_amended (monitored : List String) (s : MonState) (e : AdvEvent)
    (h1 : normalizeMac e.mac ∈ monitored) (h2 : e.mfdata ≠ []) :
    ((∃ t, s.lastDisplay (normalizeMac e.mac) = some t ∧ e.now - t < DEDUP_INTERVAL) →
        onDevice monitored s e = s) ∧
    ((∀ t, s.lastDisplay (normalizeMac e.mac) = some t → DEDUP_INTERVAL ≤ e.now - t) →
        (onDevice monitored s e).lastDisplay (normalizeMac e.mac) = some e.now ∧
        ((onDevice monitored s e).packetStats (normalizeMac e.mac)).count
          = (s.packetStats (normalizeMac e.mac)).count
            + (e.mfdata.filter fun md =>
                (decodeSensorData e.name e.uuids e.now md).isSome).length) := by
  constructor
  · rintro ⟨t, hs, hlt⟩
    exact onDevice_dup monitored s e t hs hlt
  · intro hnd
    rw [onDevice_go monitored s e h1 h2 hnd]
    obtain ⟨hc, hl⟩ := processOne_fold (normalizeMac e.mac) e.name e.uuids e.now e.mfdata
      { s with lastDisplay := fupd s.lastDisplay (normalizeMac e.mac) (some e.now) }
    refine ⟨?_, ?_⟩
    · rw [hl]
      simp [fupd]
    · rw [hc]

/-- C4 witness: a first event for device `M` passes dedup and records one
reading. -/
theorem C4_dedup_amended_witness :
    normalizeMac (evOf plA 0).mac ∈ (["M"] : List String) ∧
    (evOf plA 0).mfdata ≠ [] ∧
    ((onDevice ["M"] initState (evOf plA 0)).lastDisplay (normalizeMac (evOf plA 0).mac)
        = some (evOf plA 0).now ∧
      ((onDevice ["M"] initState (evOf plA 0)).packetStats
          (normalizeMac (evOf plA 0).mac)).count
        = (initState.packetStats (normalizeMac (evOf plA 0).mac)).count
          + ((evOf plA 0).mfdata.filter fun md =>
              (decodeSensorData (evOf plA 0).name (evOf plA 0).uuids
                (evOf plA 0).now md).isSome).length) :=
  ⟨by decide, by decide,
    (C4_dedup_amended ["M"] initState (evOf plA 0) (by decide) (by decide)).2
      (fun t h => by simp [initState] at h)⟩

/-- C4 counterexample: an undecodable payload at t = 0 records nothing yet
arms the dedup timer, so a decodable reading at t = 0.5 is discarded even
though no reading had ever been accepted for the device — refuting
"discarded if and only if within the interval of the last accepted
reading". -/
theorem C4_dedup_counterexample :
    (onDevice ["M"] (onDevice ["M"] initState evUndecodable)
        (evOf plA (1/2))).packetStats "M" = emptyStats ∧
    (onDevice ["M"] initState evUndecodable).packetStats "M" = emptyStats ∧
    (decodeSensorData "" [] (1/2) plA).isSome = true := by
  have hM : normalizeMac evUndecodable.mac = "M" := rfl
  have hstep1 : onDevice ["M"] initState evUndecodable
      = { initState with lastDisplay := fupd initState.lastDisplay "M" (some 0) } := by
    rw [onDevice_go ["M"] initState evUndecodable (by decide) (by decide)
        (fun t h => by simp [initState] at h)]
    rw [show evUndecodable.mfdata = [[1, 2, 3]] from rfl, List.foldl_cons, List.foldl_nil]
    rw [processOne_none _ _ _ _ _ _ (by decide)]
    rw [hM]
    rfl
  have h2 : (onDevice ["M"] initState evUndecodable).lastDisplay "M" = some 0 := by
    rw [hstep1]
    simp [fupd]
  have hstep2 : onDevice ["M"] (onDevice ["M"] initState evUndecodable) (evOf plA (1/2))
      = onDevice ["M"] initState evUndecodable := by
    refine onDevice_dup _ _ _ 0 ?_ ?_
    · rw [show normalizeMac (evOf plA (1/2)).mac = "M" from rfl]
      exact h2
    · rw [show (evOf plA (1/2)).now = (1/2 : ℚ) from rfl]
      norm_num [DEDUP_INTERVAL]
  refine ⟨?_, ?_, by decide⟩
  · rw [hstep2, hstep1]
    rfl
  · rw [hstep1]
    rfl

/-- C3 amended: the displayed transmissions-per-minute equals the TOTAL
session packet count divided by (elapsed seconds ÷ 60) whenever at least
two packets were counted and the elapsed time is positive; below two
observations a sentinel ("<1" or "-") is shown. -/
theorem C3_rate_amended (count : ℕ) (elapsed : ℤ) :
    (2 ≤ count → 0 < elapsed →
      rateOf count elapsed = RateStr.perMin ((count : ℚ) / ((elapsed : ℚ) / 60))) ∧
    (count < 2 →
      rateOf count elapsed = if count = 1 then RateStr.lessOne else RateStr.dash) := by
  constructor
  · intro hc he
    rw [rateOf, if_pos ⟨hc, he⟩]
  · intro hc
    rw [rateOf, if_neg (by omega)]

/-- C3 witness: 2 packets in 70 s display 2/(70/60) per minute; a single
packet displays the sentinel. -/
theorem C3_rate_amended_witness :
    (2 ≤ 2 ∧ (0 : ℤ) < 70 ∧
      rateOf 2 70 = RateStr.perMin ((2 : ℚ) / (((70 : ℤ) : ℚ) / 60))) ∧
    (1 < 2 ∧ rateOf 1 70 = if 1 = 1 then RateStr.lessOne else RateStr.dash) :=
  ⟨⟨by norm_num, by norm_num, (C3_rate_amended 2 70).1 (by norm_num) (by norm_num)⟩,
   ⟨by norm_num, (C3_rate_amended 1 70).2 (by norm_num)⟩⟩

/-- C3 counterexample: after packets at t = 0 and t = 70 the trailing-60 s
window holds one timestamp but the count is 2; the display computes
2/(70/60) = 12/7 per minute, not the claimed 1/(70/60) = 6/7. -/
theorem C3_rate_counterexample :
    ((runEvents ["M"] [evOf plA 0, evOf plA 70]).packetStats "M").count = 2 ∧
    ((runEvents ["M"] [evOf plA 0, evOf plA 70]).packetStats "M").timestamps = [70] ∧
    rateOf 2 70 = RateStr.perMin (12/7) ∧
    ((1 : ℚ) / ((70 : ℚ) / 60) = 6/7) ∧ ((12 : ℚ)/7 ≠ 6/7) := by
  have hsomeA : ∀ t : ℚ, (decodeSensorData "" [] t plA).isSome = true := by
    intro t
    obtain ⟨d, hd, _⟩ := decode_plA t
    rw [hd]
    rfl
  have hrun : runEvents ["M"] [evOf plA 0, evOf plA 70]
      = onDevice ["M"] (onDevice ["M"] initState (evOf plA 0)) (evOf plA 70) := rfl
  obtain ⟨hld1, hc1, ht1, _⟩ := onDevice_single_step ["M"] initState plA 0 (by decide)
      (fun t0 h => by simp [initState] at h)
  have hc1' : ((onDevice ["M"] initState (evOf plA 0)).packetStats "M").count = 1 := by
    rw [hc1, hsomeA 0]
    rfl
  have ht1' : ((onDevice ["M"] initState (evOf plA 0)).packetStats "M").timestamps = [0] := by
    rw [ht1, hsomeA 0, show (initState.packetStats "M").timestamps = ([] : List ℚ) from rfl]
    norm_num [List.filter]
  obtain ⟨hld2, hc2, ht2, _⟩ := onDevice_single_step ["M"]
      (onDevice ["M"] initState (evOf plA 0)) plA 70 (by decide)
      (fun t0 h => by
        rw [hld1] at h
        injection h with h
        subst h
        norm_num [DEDUP_INTERVAL])
  refine ⟨?_, ?_, ?_, by norm_num, by norm_num⟩
  · rw [hrun, hc2, hsomeA 70, hc1']
    norm_num
  · rw [hrun, ht2, hsomeA 70, ht1']
    norm_num [List.filter]
  · rw [rateOf, if_pos ⟨by norm_num, by norm_num⟩]
    norm_num

/-- C5 amended: in every reachable state adjacent history entries differ in
payload hex (consecutive duplicates are never stored); recording a payload
equal to the most recent entry leaves history unchanged; a differing
payload appends exactly one entry (evicting the oldest at capacity); and
the append preserves strict time order when the new timestamp is larger.
Non-adjacent duplicates can recur, so entries are not globally unique. -/
theorem C5_history_amended :
    (∀ monitored events mac,
      adjDistinct ((runEvents monitored events).packetStats mac).history) ∧
    (∀ h e, h.getLast?.map HistEntry.hex = some e.hex → histUpdate h e = h) ∧
    (∀ h e, h.getLast?.map HistEntry.hex ≠ some e.hex →
      (histUpdate h e = histAppend h e ∧
        (h.length < HISTORY_MAX → histUpdate h e = h ++ [e]))) ∧
    (∀ h e, timeOrdered h → (∀ x, h.getLast? = some x → x.time < e.time) →
      timeOrdered (histUpdate h e)) := by
  refine ⟨?_, ?_, ?_, ?_⟩
  · intro monitored events mac
    exact runEvents_inv monitored events mac
  · intro h e hmap
    have hne : h ≠ [] := by
      intro hnil
      subst hnil
      simp at hmap
    rw [histUpdate, if_neg]
    rw [not_or]
    exact ⟨hne, not_not_intro hmap⟩
  · intro h e hne
    constructor
    · rw [histUpdate, if_pos (Or.inr hne)]
    · intro hlen
      rw [histUpdate, if_pos (Or.inr hne)]
      simp only [histAppend]
      rw [if_neg]
      simp only [List.length_append, List.length_singleton, HISTORY_MAX] at hlen ⊢
      omega
  · intro h e hto hlast
    exact histUpdate_chain' _ h e hto (fun x hx _ => hlast x hx)

/-- C5 witness: concrete instances of each clause of the amended claim. -/
theorem C5_history_amended_witness :
    adjDistinct ((runEvents ["M"] [evOf plA 0]).packetStats "M").history ∧
    (([⟨"aa", 0, 0, 0, 0⟩] : List HistEntry).getLast?.map HistEntry.hex
        = some (⟨"aa", 1, 1, 1, 1⟩ : HistEntry).hex ∧
      histUpdate [⟨"aa", 0, 0, 0, 0⟩] ⟨"aa", 1, 1, 1, 1⟩ = [⟨"aa", 0, 0, 0, 0⟩]) ∧
    (([⟨"aa", 0, 0, 0, 0⟩] : List HistEntry).getLast?.map HistEntry.hex
        ≠ some (⟨"bb", 2, 2, 2, 1⟩ : HistEntry).hex ∧
      ([⟨"aa", 0, 0, 0, 0⟩] : List HistEntry).length < HISTORY_MAX ∧
      histUpdate [⟨"aa", 0, 0, 0, 0⟩] ⟨"bb", 2, 2, 2, 1⟩
        = [⟨"aa", 0, 0, 0, 0⟩] ++ [⟨"bb", 2, 2, 2, 1⟩]) ∧
    (timeOrdered ([⟨"aa", 0, 0, 0, 0⟩] : List HistEntry) ∧
      timeOrdered (histUpdate [⟨"aa", 0, 0, 0, 0⟩] ⟨"bb", 2, 2, 2, 1⟩)) :=
  ⟨C5_history_amended.1 ["M"] [evOf plA 0] "M",
   ⟨by decide, C5_history_amended.2.1 _ _ (by decide)⟩,
   ⟨by decide, by decide,
     (C5_history_amended.2.2.1 _ _ (by decide)).2 (by decide)⟩,
   ⟨List.chain'_singleton _,
     C5_history_amended.2.2.2 _ _ (List.chain'_singleton _)
       (fun x hx => by
         rw [show ([(⟨"aa", 0, 0, 0, 0⟩ : HistEntry)].getLast?)
             = some ⟨"aa", 0, 0, 0, 0⟩ from rfl] at hx
         injection hx with hx
         subst hx
         norm_num)⟩⟩

/-- C5 counterexample: recording payloads A, B, A (all accepted, distinct
from their immediate predecessors) leaves a 3-entry history whose first
and third entries carry the same payload hex — refuting "no two entries
in the history ever share the same payload content". -/
theorem C5_history_counterexample :
    ((runEvents ["M"] [evOf plA 0, evOf plB 2, evOf plA 4]).packetStats "M").history.map
        HistEntry.hex = ["01020304050607", "01030304050607", "01020304050607"] ∧
    ("01020304050607" : String) ≠ "01030304050607" := by
  refine ⟨?_, by decide⟩
  obtain ⟨dA0, hdA0, hxA0⟩ := decode_plA 0
  obtain ⟨dB2, hdB2, hxB2⟩ := decode_plB 2
  obtain ⟨dA4, hdA4, hxA4⟩ := decode_plA 4
  have hrun : runEvents ["M"] [evOf plA 0, evOf plB 2, evOf plA 4]
      = onDevice ["M"] (onDevice ["M"] (onDevice ["M"] initState (evOf plA 0))
          (evOf plB 2)) (evOf plA 4) := rfl
  obtain ⟨hld1, _, _, hh1⟩ := onDevice_single_step ["M"] initState plA 0 (by decide)
      (fun t0 h => by simp [initState] at h)
  obtain ⟨hld2, _, _, hh2⟩ := onDevice_single_step ["M"]
      (onDevice ["M"] initState (evOf plA 0)) plB 2 (by decide)
      (fun t0 h => by
        rw [hld1] at h
        injection h with h
        subst h
        norm_num [DEDUP_INTERVAL])
  obtain ⟨hld3, _, _, hh3⟩ := onDevice_single_step ["M"]
      (onDevice ["M"] (onDevice ["M"] initState (evOf plA 0)) (evOf plB 2)) plA 4 (by decide)
      (fun t0 h => by
        rw [hld2] at h
        injection h with h
        subst h
        norm_num [DEDUP_INTERVAL])
  have h1 : ((onDevice ["M"] initState (evOf plA 0)).packetStats "M").history
      = [⟨dA0.hex_data, dA0.pressure_psi, dA0.pressure_bar, dA0.temperature, 0⟩] := by
    rw [hh1]
    simp only [hdA0]
    rw [show (initState.packetStats "M").history = ([] : List HistEntry) from rfl]
    rw [histUpdate, if_pos (Or.inl rfl)]
    simp [histAppend, HISTORY_MAX]
  have h2 : ((onDevice ["M"] (onDevice ["M"] initState (evOf plA 0))
        (evOf plB 2)).packetStats "M").history
      = [⟨dA0.hex_data, dA0.pressure_psi, dA0.pressure_bar, dA0.temperature, 0⟩,
         ⟨dB2.hex_data, dB2.pressure_psi, dB2.pressure_bar, dB2.temperature, 2⟩] := by
    rw [hh2]
    simp only [hdB2]
    rw [h1]
    rw [histUpdate, if_pos (Or.inr (by
      rw [show ([(⟨dA0.hex_data, dA0.pressure_psi, dA0.pressure_bar, dA0.temperature,
          0⟩ : HistEntry)].getLast?) = some ⟨dA0.hex_data, dA0.pressure_psi,
          dA0.pressure_bar, dA0.temperature, 0⟩ from rfl]
      rw [Option.map_some']
      show (some dA0.hex_data : Option String) ≠ some dB2.hex_data
      rw [hxA0, hxB2]
      decide))]
    simp [histAppend, HISTORY_MAX]
  have h3 : ((onDevice ["M"] (onDevice ["M"] (onDevice ["M"] initState (evOf plA 0))
        (evOf plB 2)) (evOf plA 4)).packetStats "M").history
      = [⟨dA0.hex_data, dA0.pressure_psi, dA0.pressure_bar, dA0.temperature, 0⟩,
         ⟨dB2.hex_data, dB2.pressure_psi, dB2.pressure_bar, dB2.temperature, 2⟩,
         ⟨dA4.hex_data, dA4.pressure_psi, dA4.pressure_bar, dA4.temperature, 4⟩] := by
    rw [hh3]
    simp only [hdA4]
    rw [h2]
    rw [histUpdate, if_pos (Or.inr (by
      rw [show ([(⟨dA0.hex_data, dA0.pressure_psi, dA0.pressure_bar, dA0.temperature,
          0⟩ : HistEntry),
          ⟨dB2.hex_data, dB2.pressure_psi, dB2.pressure_bar, dB2.temperature,
          2⟩].getLast?) = some ⟨dB2.hex_data, dB2.pressure_psi, dB2.pressure_bar,
          dB2.temperature, 2⟩ from rfl]
      rw [Option.map_some']
      show (some dB2.hex_data : Option String) ≠ some dA4.hex_data
      rw [hxB2, hxA4]
      decide))]
    simp [histAppend, HISTORY_MAX]
  rw [hrun, h3]
  simp [hxA0, hxB2, hxA4]

/-- C2 witness: the priority bound instantiated at the ambiguous 6-byte
evidence: SYTPMS identifies it, yet the selected decoder sits no later
than SYTPMS in the registry (it is TPMS3). -/
theorem C2_amended_witness :
    canDecode DecoderId.sytpms "TPMS1_ABCDEF" [] [1, 2, 3, 4, 5, 6] = true ∧
    priorityIdx (getDecoder "TPMS1_ABCDEF" [] [1, 2, 3, 4, 5, 6])
      ≤ priorityIdx DecoderId.sytpms ∧
    getDecoder "TPMS1_ABCDEF" [] [1, 2, 3, 4, 5, 6] = DecoderId.tpms3 :=
  ⟨by decide,
   C2_amended.2.1 "TPMS1_ABCDEF" [] [1, 2, 3, 4, 5, 6] DecoderId.sytpms (by decide),
   C2_amended.2.2.2⟩

/-- C7 witness: the library's own BR test packet `281d130105005e` (whose
byte sum `0x5e` matches the checksum field) instantiates the theorem. -/
theorem C7_br_checksum_policy_witness :
    (∀ b ∈ brTestPayload, b < 256) ∧ 7 ≤ brTestPayload.length ∧
    (∃ r, brDecode brTestPayload = some r ∧
      (r.valid = true ↔
        (brTestPayload.take 5).sum % 65536
          = byte brTestPayload 5 * 256 + byte brTestPayload 6)) :=
  ⟨by decide, by decide,
   C7_br_checksum_policy brTestPayload (by decide) (by decide)⟩

end TPMS
